import Mathlib

/-!
Verification development for the connect-go-prometheus interceptor
(`interceptor.go`, package `connectprometheus`).

The repository holds two near-duplicate variants of the interceptor:
the full variant (counters plus latency histograms) and a counter-only
variant.  Both are embedded below: the full variant in namespace
`ConnectPrometheus`, the counter-only variant in the nested namespace
`ConnectPrometheus.CounterOnly`.  The counter-only source duplicates
the `code` and `streamType` helpers verbatim, so those are defined once
and shared.

Side effects (counter increments, histogram observations, the delegate
invocation) are made explicit: the wrapped unary function returns, next
to the response and error, the list of metric events it emitted and the
list of delegate invocations it performed (each with the context and
request it passed).  Wall-clock time is environmental and is not
modelled; no claim concerns the observed duration value, only that an
observation on a given histogram with a given label set happens.
-/

namespace ConnectPrometheus

/-- Modelled dependency: the status codes of `connect-go` (`connect.Code`),
the fixed enumeration `canceled .. unauthenticated` (there is no `ok` code;
success is a nil error). -/
inductive Code
  | canceled
  | unknown
  | invalidArgument
  | deadlineExceeded
  | notFound
  | alreadyExists
  | permissionDenied
  | resourceExhausted
  | failedPrecondition
  | aborted
  | outOfRange
  | unimplemented
  | internal
  | unavailable
  | dataLoss
  | unauthenticated
deriving DecidableEq, Repr

/-- Modelled dependency: `connect.Code.String()`, the canonical snake_case
name of each status code. -/
def Code.toString : Code → String
  | .canceled => "canceled"
  | .unknown => "unknown"
  | .invalidArgument => "invalid_argument"
  | .deadlineExceeded => "deadline_exceeded"
  | .notFound => "not_found"
  | .alreadyExists => "already_exists"
  | .permissionDenied => "permission_denied"
  | .resourceExhausted => "resource_exhausted"
  | .failedPrecondition => "failed_precondition"
  | .aborted => "aborted"
  | .outOfRange => "out_of_range"
  | .unimplemented => "unimplemented"
  | .internal => "internal"
  | .unavailable => "unavailable"
  | .dataLoss => "data_loss"
  | .unauthenticated => "unauthenticated"

/-- Modelled dependency: a `*connect.Error`, a Go error carrying a status
code and a message. -/
structure ConnectError where
  code : Code
  message : String
deriving DecidableEq, Repr

/-- Modelled dependency: a Go `error` value as seen by this package.
It either wraps a `*connect.Error` (so it carries a recognizable status
code) or it is some other error with no recognizable code. -/
inductive GoError
  | connectErr (e : ConnectError)
  | plain (message : String)
deriving DecidableEq, Repr

/-- Modelled dependency: `connect.CodeOf`.  An error wrapping a
`*connect.Error` yields that error's code; any other error yields
`CodeUnknown`. -/
def codeOf : GoError → Code
  | .connectErr e => e.code
  | .plain _ => Code.unknown

/-- `code` from `interceptor.go`: returns the code label based on an
error; if the error is nil the code is `"ok"`, otherwise
`connect.CodeOf(err).String()`. -/
def code : Option GoError → String
  | none => "ok"
  | some err => (codeOf err).toString

/-- Modelled dependency: the `connect.StreamType` constants.  `StreamType`
is a Go integer type (`uint8` bitfield), modelled as `Nat`. -/
def streamTypeUnary : Nat := 0

/-- Modelled dependency: `connect.StreamTypeClient` (bit 0). -/
def streamTypeClient : Nat := 1

/-- Modelled dependency: `connect.StreamTypeServer` (bit 1). -/
def streamTypeServer : Nat := 2

/-- Modelled dependency: `connect.StreamTypeBidi = Client | Server`. -/
def streamTypeBidi : Nat := 3

/-- `streamType` from `interceptor.go`: the string for a
`connect.StreamType`, with the empty string for any value outside the
four known shapes (the `default` branch of the Go `switch`). -/
def streamType (t : Nat) : String :=
  if t = streamTypeUnary then "unary"
  else if t = streamTypeClient then "client_stream"
  else if t = streamTypeServer then "server_stream"
  else if t = streamTypeBidi then "bidi_stream"
  else ""

/-- Go `strings.Split` restricted to a single-character separator,
working on the character list: every occurrence of `sep` separates
segments, so `n` separators yield `n + 1` (possibly empty) segments, and
the empty string yields `[[]]`. -/
def splitOnChar (sep : Char) : List Char → List (List Char)
  | [] => [[]]
  | c :: cs =>
    match splitOnChar sep cs with
    | [] => [[]]
    | h :: t => if c = sep then [] :: h :: t else (c :: h) :: t

/-- Go `strings.Split s sep` for a one-character separator, as used by
`strings.Split(spec.Procedure, "/")`. -/
def goSplit (s : String) (sep : Char) : List String :=
  (splitOnChar sep s.data).map String.mk

/-- Modelled dependency: `connect.Spec`, the per-call descriptor — the
procedure path, the stream type, and whether this side is the initiating
client. -/
structure Spec where
  procedure : String
  streamType : Nat
  isClient : Bool
deriving DecidableEq, Repr

/-- Context handle (`context.Context`), opaque to the interceptor and
only forwarded; modelled as an identifier. -/
abbrev Ctx := Nat

/-- Modelled dependency: `connect.AnyRequest` — exposes its `Spec()` and
an opaque payload (modelled as an identifier; the interceptor never
reads it). -/
structure AnyRequest where
  spec : Spec
  payload : Nat
deriving DecidableEq, Repr

/-- `connect.AnyResponse`, opaque to the interceptor; modelled as an
identifier.  A nil response is `Option.none` at the use sites. -/
abbrev AnyResponse := Nat

/-- `connect.UnaryFunc`: the delegate,
`func(ctx, req) (connect.AnyResponse, error)`.  Both the response and
the error may be nil. -/
abbrev UnaryFunc := Ctx → AnyRequest → Option AnyResponse × Option GoError

/-- The four metric instruments held by the full-variant `Interceptor`
struct.  The counter-only variant holds only the two request counters. -/
inductive Instrument
  | clientRequests
  | clientDuration
  | serverRequests
  | serverDuration
deriving DecidableEq, Repr

/-- Whether an instrument is one of the client-side pair. -/
def Instrument.isClientSide : Instrument → Bool
  | .clientRequests => true
  | .clientDuration => true
  | .serverRequests => false
  | .serverDuration => false

/-- The label values passed to `WithLabelValues`, in the source's
positional order: code, method, service, type. -/
structure Labels where
  code : String
  method : String
  service : String
  type : String
deriving DecidableEq, Repr

/-- A mutation of a metric instrument: a counter increment (`.Inc()`) or
a histogram observation (`.Observe(seconds)`; the observed wall-clock
value is environmental and not modelled). -/
inductive MetricEvent
  | inc (i : Instrument) (l : Labels)
  | observe (i : Instrument) (l : Labels)
deriving DecidableEq, Repr

/-- The instrument an event mutates. -/
def MetricEvent.instrument : MetricEvent → Instrument
  | .inc i _ => i
  | .observe i _ => i

/-- Whether the event is a counter increment. -/
def MetricEvent.isInc : MetricEvent → Bool
  | .inc _ _ => true
  | .observe _ _ => false

/-- The full observable behaviour of one invocation of the wrapped unary
function: the returned response and error, the metric events emitted,
and the delegate invocations performed (with the context and request
passed to each). -/
structure CallResult where
  resp : Option AnyResponse
  err : Option GoError
  events : List MetricEvent
  delegateCalls : List (Ctx × AnyRequest)
deriving DecidableEq, Repr

/-- The internal error built for a malformed procedure identifier. -/
def malformedError (procedure : String) : GoError :=
  GoError.connectErr
    ⟨Code.internal, "procedure in prometheus interceptor malformed: " ++ procedure⟩

/-- `Interceptor.WrapUnary` of the full variant: split the procedure on
`/`; if it does not yield exactly three segments, return a nil response
and an internal error without invoking the delegate or touching any
instrument; otherwise take segments 1 and 2 as service and method,
invoke the delegate once with the original context and request, emit
one increment and one observation on the pair of instruments selected
by `spec.IsClient`, and return the delegate's response and error
unchanged. -/
def wrapUnary (next : UnaryFunc) (ctx : Ctx) (req : AnyRequest) : CallResult :=
  let procedure := goSplit req.spec.procedure '/'
  if procedure.length = 3 then
    let service := procedure[1]!
    let method := procedure[2]!
    let r := next ctx req
    let l : Labels := ⟨code r.2, method, service, streamType req.spec.streamType⟩
    if req.spec.isClient then
      { resp := r.1, err := r.2
        events := [MetricEvent.inc Instrument.clientRequests l,
                   MetricEvent.observe Instrument.clientDuration l]
        delegateCalls := [(ctx, req)] }
    else
      { resp := r.1, err := r.2
        events := [MetricEvent.inc Instrument.serverRequests l,
                   MetricEvent.observe Instrument.serverDuration l]
        delegateCalls := [(ctx, req)] }
  else
    { resp := none
      err := some (malformedError req.spec.procedure)
      events := []
      delegateCalls := [] }

/-- `connect.StreamingClientFunc`, opaque to the interceptor; the
conn result is modelled as an identifier. -/
abbrev StreamingClientFunc := Ctx → Spec → Nat

/-- `connect.StreamingHandlerFunc`, opaque to the interceptor. -/
abbrev StreamingHandlerFunc := Ctx → Nat → Option GoError

/-- `Interceptor.WrapStreamingClient` of the full variant: a nop, the
handle is returned unchanged and nothing else happens. -/
def wrapStreamingClient (handle : StreamingClientFunc) : StreamingClientFunc :=
  handle

/-- `Interceptor.WrapStreamingHandler` of the full variant: a nop. -/
def wrapStreamingHandler (handle : StreamingHandlerFunc) : StreamingHandlerFunc :=
  handle

/-- Which kind of instrument a registration creates. -/
inductive InstrumentKind
  | counter
  | histogram
deriving DecidableEq, Repr

/-- One instrument registration performed against the supplied
`prometheus.Registerer` by the constructor: the instrument's name, its
label-dimension schema, its kind, and (for histograms) the native
histogram options.  The Go float literal `1.1` is modelled as the
rational `11/10`. -/
structure Registration where
  name : String
  labelNames : List String
  kind : InstrumentKind
  nativeHistogramBucketFactor : Option ℚ
  nativeHistogramMaxBucketNumber : Option Nat
deriving DecidableEq, Repr

/-- The shared label-dimension schema `labelNames` of the full-variant
constructor. -/
def labelNames : List String := ["code", "method", "service", "type"]

/-- `NewInterceptor` of the full variant, as the sequence of instrument
registrations it performs against the supplied registry, in source
order. -/
def newInterceptor : List Registration :=
  [ { name := "connect_client_requests_total"
      labelNames := labelNames
      kind := InstrumentKind.counter
      nativeHistogramBucketFactor := none
      nativeHistogramMaxBucketNumber := none },
    { name := "connect_client_requests_duration_seconds"
      labelNames := labelNames
      kind := InstrumentKind.histogram
      nativeHistogramBucketFactor := some (11 / 10 : ℚ)
      nativeHistogramMaxBucketNumber := some 100 },
    { name := "connect_server_requests_total"
      labelNames := labelNames
      kind := InstrumentKind.counter
      nativeHistogramBucketFactor := none
      nativeHistogramMaxBucketNumber := none },
    { name := "connect_server_requests_duration_seconds"
      labelNames := labelNames
      kind := InstrumentKind.histogram
      nativeHistogramBucketFactor := some (11 / 10 : ℚ)
      nativeHistogramMaxBucketNumber := some 100 } ]

namespace CounterOnly

/-- `Interceptor.WrapUnary` of the counter-only variant: identical to
the full variant's except that no start time is taken and only the
selected request counter is incremented (no histogram observation). -/
def wrapUnary (next : UnaryFunc) (ctx : Ctx) (req : AnyRequest) : CallResult :=
  let procedure := goSplit req.spec.procedure '/'
  if procedure.length = 3 then
    let service := procedure[1]!
    let method := procedure[2]!
    let r := next ctx req
    let l : Labels := ⟨code r.2, method, service, streamType req.spec.streamType⟩
    if req.spec.isClient then
      { resp := r.1, err := r.2
        events := [MetricEvent.inc Instrument.clientRequests l]
        delegateCalls := [(ctx, req)] }
    else
      { resp := r.1, err := r.2
        events := [MetricEvent.inc Instrument.serverRequests l]
        delegateCalls := [(ctx, req)] }
  else
    { resp := none
      err := some (malformedError req.spec.procedure)
      events := []
      delegateCalls := [] }

/-- `Interceptor.WrapStreamingClient` of the counter-only variant: a
nop. -/
def wrapStreamingClient (handle : StreamingClientFunc) : StreamingClientFunc :=
  handle

/-- `Interceptor.WrapStreamingHandler` of the counter-only variant: a
nop. -/
def wrapStreamingHandler (handle : StreamingHandlerFunc) : StreamingHandlerFunc :=
  handle

/-- `NewInterceptor` of the counter-only variant: it registers only the
two request counters, with the same label-dimension schema. -/
def newInterceptor : List Registration :=
  [ { name := "connect_client_requests_total"
      labelNames := ConnectPrometheus.labelNames
      kind := InstrumentKind.counter
      nativeHistogramBucketFactor := none
      nativeHistogramMaxBucketNumber := none },
    { name := "connect_server_requests_total"
      labelNames := ConnectPrometheus.labelNames
      kind := InstrumentKind.counter
      nativeHistogramBucketFactor := none
      nativeHistogramMaxBucketNumber := none } ]

end CounterOnly

end ConnectPrometheus

section Sanity

open ConnectPrometheus

example : goSplit "/greet.v1.GreetService/Greet" '/' =
    ["", "greet.v1.GreetService", "Greet"] := by decide

example : goSplit "//m" '/' = ["", "", "m"] := by decide

example : goSplit "bad" '/' = ["bad"] := by decide

example : goSplit "/s/" '/' = ["", "s", ""] := by decide

example : goSplit "" '/' = [""] := by decide

example : goSplit "/a/b/c/d" '/' = ["", "a", "b", "c", "d"] := by decide

end Sanity

namespace ConnectPrometheus

/-- Claim C1: for every well-formed procedure identifier `/service/method`
and every delegate that succeeds (nil error), the wrapped unary function
of either variant increments exactly the counter matching the call's
direction (client counter when `IsClient`, server counter otherwise)
with labels `{code="ok", method, service, type}` exactly once; the only
other instrument change is the matching duration-histogram observation
in the full variant, and no instrument of the opposite direction is
touched (the emitted event lists are exactly as stated). -/
theorem wrapUnary_success_metrics (service method : String) (next : UnaryFunc)
    (ctx : Ctx) (req : AnyRequest)
    (hsplit : goSplit req.spec.procedure '/' = ["", service, method])
    (hok : (next ctx req).2 = none) :
    (wrapUnary next ctx req).events =
      (if req.spec.isClient then
        [MetricEvent.inc Instrument.clientRequests
           ⟨"ok", method, service, streamType req.spec.streamType⟩,
         MetricEvent.observe Instrument.clientDuration
           ⟨"ok", method, service, streamType req.spec.streamType⟩]
      else
        [MetricEvent.inc Instrument.serverRequests
           ⟨"ok", method, service, streamType req.spec.streamType⟩,
         MetricEvent.observe Instrument.serverDuration
           ⟨"ok", method, service, streamType req.spec.streamType⟩])
    ∧ (CounterOnly.wrapUnary next ctx req).events =
      (if req.spec.isClient then
        [MetricEvent.inc Instrument.clientRequests
           ⟨"ok", method, service, streamType req.spec.streamType⟩]
      else
        [MetricEvent.inc Instrument.serverRequests
           ⟨"ok", method, service, streamType req.spec.streamType⟩]) := by
  cases hc : req.spec.isClient <;>
    constructor <;>
      simp [wrapUnary, CounterOnly.wrapUnary, hsplit, hok, hc, code]

/-- Witness for C1: a successful client-direction unary call on
`/greet.v1.GreetService/Greet` emits exactly the client-counter
increment and the client-histogram observation with
`{code="ok", method="Greet", service="greet.v1.GreetService",
type="unary"}`, and only the increment in the counter-only variant. -/
theorem wrapUnary_success_metrics_witness :
    (wrapUnary (fun _ _ => (some 7, none)) 0
        ⟨⟨"/greet.v1.GreetService/Greet", 0, true⟩, 5⟩).events =
      [MetricEvent.inc Instrument.clientRequests
         ⟨"ok", "Greet", "greet.v1.GreetService", "unary"⟩,
       MetricEvent.observe Instrument.clientDuration
         ⟨"ok", "Greet", "greet.v1.GreetService", "unary"⟩]
    ∧ (CounterOnly.wrapUnary (fun _ _ => (some 7, none)) 0
        ⟨⟨"/greet.v1.GreetService/Greet", 0, true⟩, 5⟩).events =
      [MetricEvent.inc Instrument.clientRequests
         ⟨"ok", "Greet", "greet.v1.GreetService", "unary"⟩] := by
  have h := wrapUnary_success_metrics "greet.v1.GreetService" "Greet"
    (fun _ _ => (some 7, none)) 0
    ⟨⟨"/greet.v1.GreetService/Greet", 0, true⟩, 5⟩ (by decide) rfl
  simpa using h

/-- Claim C2: for every procedure identifier that does not split on `/`
into exactly three segments, the wrapped unary function of either
variant returns a nil response together with the internal error carrying
the descriptive malformed-procedure message, invokes the delegate never,
and records no counter increment or histogram observation. -/
theorem wrapUnary_malformed_rejected (next : UnaryFunc) (ctx : Ctx)
    (req : AnyRequest)
    (h : (goSplit req.spec.procedure '/').length ≠ 3) :
    wrapUnary next ctx req =
      { resp := none, err := some (malformedError req.spec.procedure)
        events := [], delegateCalls := [] }
    ∧ CounterOnly.wrapUnary next ctx req =
      { resp := none, err := some (malformedError req.spec.procedure)
        events := [], delegateCalls := [] } := by
  constructor <;> simp [wrapUnary, CounterOnly.wrapUnary, h]

/-- Witness for C2: on procedure `"/a/b/c/d"` (five segments) both
variants return a nil response and the internal malformed-procedure
error, with no delegate call and no metric event. -/
theorem wrapUnary_malformed_rejected_witness :
    wrapUnary (fun _ _ => (some 1, none)) 0 ⟨⟨"/a/b/c/d", 0, true⟩, 0⟩ =
      { resp := none, err := some (malformedError "/a/b/c/d")
        events := [], delegateCalls := [] }
    ∧ CounterOnly.wrapUnary (fun _ _ => (some 1, none)) 0
        ⟨⟨"/a/b/c/d", 0, true⟩, 0⟩ =
      { resp := none, err := some (malformedError "/a/b/c/d")
        events := [], delegateCalls := [] } :=
  wrapUnary_malformed_rejected (fun _ _ => (some 1, none)) 0
    ⟨⟨"/a/b/c/d", 0, true⟩, 0⟩ (by decide)

/-- Counterexample to claim C3: the code checks only the segment count,
never non-emptiness or a leading slash.  On `"//m"` (empty service
segment) the delegate is invoked and the call succeeds; `"/s/"` (empty
method) and `"a/b/c"` (no leading slash) are likewise delegated, contrary
to the claim that such identifiers are rejected before delegation. -/
theorem wrapUnary_shape_not_checked_cex :
    (wrapUnary (fun _ _ => (some 3, none)) 0
        ⟨⟨"//m", 0, false⟩, 0⟩).delegateCalls = [(0, ⟨⟨"//m", 0, false⟩, 0⟩)]
    ∧ (wrapUnary (fun _ _ => (some 3, none)) 0 ⟨⟨"//m", 0, false⟩, 0⟩).err = none
    ∧ (wrapUnary (fun _ _ => (some 3, none)) 0
        ⟨⟨"/s/", 0, false⟩, 0⟩).delegateCalls = [(0, ⟨⟨"/s/", 0, false⟩, 0⟩)]
    ∧ (wrapUnary (fun _ _ => (some 3, none)) 0
        ⟨⟨"a/b/c", 0, false⟩, 0⟩).delegateCalls =
      [(0, ⟨⟨"a/b/c", 0, false⟩, 0⟩)] := by
  decide

/-- Claim C3 as amended: the only well-formedness check is the segment
count.  The wrapped unary function delegates exactly when the procedure
identifier splits on `/` into exactly three segments — even when the
service or method segment is empty or there is no leading slash — and
otherwise returns the internal malformed-procedure error without
delegating. -/
theorem wrapUnary_delegation_iff_three_segments (next : UnaryFunc) (ctx : Ctx)
    (req : AnyRequest) :
    (wrapUnary next ctx req).delegateCalls =
      (if (goSplit req.spec.procedure '/').length = 3 then [(ctx, req)] else [])
    ∧ (wrapUnary next ctx req).err =
      (if (goSplit req.spec.procedure '/').length = 3 then (next ctx req).2
       else some (malformedError req.spec.procedure))
    ∧ (CounterOnly.wrapUnary next ctx req).delegateCalls =
      (if (goSplit req.spec.procedure '/').length = 3 then [(ctx, req)] else [])
    ∧ (CounterOnly.wrapUnary next ctx req).err =
      (if (goSplit req.spec.procedure '/').length = 3 then (next ctx req).2
       else some (malformedError req.spec.procedure)) := by
  by_cases h3 : (goSplit req.spec.procedure '/').length = 3 <;>
    cases hc : req.spec.isClient <;>
      simp [wrapUnary, CounterOnly.wrapUnary, h3, hc]

/-- Claim C4: whenever the procedure identifier splits into exactly
three segments, the wrapped unary function of either variant invokes
the delegate exactly once, passing the original context and request
unchanged, and returns the delegate's response and error to the caller
without modification. -/
theorem wrapUnary_delegates_once_unchanged (next : UnaryFunc) (ctx : Ctx)
    (req : AnyRequest)
    (h3 : (goSplit req.spec.procedure '/').length = 3) :
    (wrapUnary next ctx req).resp = (next ctx req).1
    ∧ (wrapUnary next ctx req).err = (next ctx req).2
    ∧ (wrapUnary next ctx req).delegateCalls = [(ctx, req)]
    ∧ (CounterOnly.wrapUnary next ctx req).resp = (next ctx req).1
    ∧ (CounterOnly.wrapUnary next ctx req).err = (next ctx req).2
    ∧ (CounterOnly.wrapUnary next ctx req).delegateCalls = [(ctx, req)] := by
  cases hc : req.spec.isClient <;>
    simp [wrapUnary, CounterOnly.wrapUnary, h3, hc]

/-- Witness for C4: on `/svc/m` with a delegate returning response `42`
and a not-found error, both variants return exactly that pair and record
exactly one delegate call with the original context and request. -/
theorem wrapUnary_delegates_once_unchanged_witness :
    (wrapUnary (fun _ _ => (some 42, some (GoError.connectErr
        ⟨Code.notFound, "nope"⟩))) 9 ⟨⟨"/svc/m", 0, false⟩, 1⟩).resp = some 42
    ∧ (wrapUnary (fun _ _ => (some 42, some (GoError.connectErr
        ⟨Code.notFound, "nope"⟩))) 9 ⟨⟨"/svc/m", 0, false⟩, 1⟩).err =
      some (GoError.connectErr ⟨Code.notFound, "nope"⟩)
    ∧ (wrapUnary (fun _ _ => (some 42, some (GoError.connectErr
        ⟨Code.notFound, "nope"⟩))) 9 ⟨⟨"/svc/m", 0, false⟩, 1⟩).delegateCalls =
      [(9, ⟨⟨"/svc/m", 0, false⟩, 1⟩)] := by
  have h := wrapUnary_delegates_once_unchanged
    (fun _ _ => (some 42, some (GoError.connectErr ⟨Code.notFound, "nope"⟩)))
    9 ⟨⟨"/svc/m", 0, false⟩, 1⟩ (by decide)
  exact ⟨h.1, h.2.1, h.2.2.1⟩

end ConnectPrometheus

namespace ConnectPrometheus

/-- No status code has an empty canonical name. -/
theorem Code.toString_ne_empty (c : Code) : c.toString ≠ "" := by
  cases c <;> decide

/-- Claim C5: the code-label derivation is total — a nil error yields
`"ok"`; a failure wrapping a connect error yields the canonical name of
its status code, for every status in the fixed enumeration; a failure
with no recognizable status code yields `"unknown"`; and the label is
never empty. -/
theorem code_label_total (e : GoError) (m : String) :
    code none = "ok"
    ∧ code (some (GoError.plain m)) = "unknown"
    ∧ code (some (GoError.connectErr ⟨Code.canceled, m⟩)) = "canceled"
    ∧ code (some (GoError.connectErr ⟨Code.unknown, m⟩)) = "unknown"
    ∧ code (some (GoError.connectErr ⟨Code.invalidArgument, m⟩)) =
        "invalid_argument"
    ∧ code (some (GoError.connectErr ⟨Code.deadlineExceeded, m⟩)) =
        "deadline_exceeded"
    ∧ code (some (GoError.connectErr ⟨Code.notFound, m⟩)) = "not_found"
    ∧ code (some (GoError.connectErr ⟨Code.alreadyExists, m⟩)) =
        "already_exists"
    ∧ code (some (GoError.connectErr ⟨Code.permissionDenied, m⟩)) =
        "permission_denied"
    ∧ code (some (GoError.connectErr ⟨Code.resourceExhausted, m⟩)) =
        "resource_exhausted"
    ∧ code (some (GoError.connectErr ⟨Code.failedPrecondition, m⟩)) =
        "failed_precondition"
    ∧ code (some (GoError.connectErr ⟨Code.aborted, m⟩)) = "aborted"
    ∧ code (some (GoError.connectErr ⟨Code.outOfRange, m⟩)) = "out_of_range"
    ∧ code (some (GoError.connectErr ⟨Code.unimplemented, m⟩)) =
        "unimplemented"
    ∧ code (some (GoError.connectErr ⟨Code.internal, m⟩)) = "internal"
    ∧ code (some (GoError.connectErr ⟨Code.unavailable, m⟩)) = "unavailable"
    ∧ code (some (GoError.connectErr ⟨Code.dataLoss, m⟩)) = "data_loss"
    ∧ code (some (GoError.connectErr ⟨Code.unauthenticated, m⟩)) =
        "unauthenticated"
    ∧ code (some e) ≠ ""
    ∧ code none ≠ "" := by
  refine ⟨rfl, rfl, rfl, rfl, rfl, rfl, rfl, rfl, rfl, rfl, rfl, rfl, rfl,
    rfl, rfl, rfl, rfl, rfl, ?_, by decide⟩
  rcases e with ⟨⟨c, msg⟩⟩ | msg
  · exact Code.toString_ne_empty c
  · exact Code.toString_ne_empty Code.unknown

/-- Claim C6: the type-label derivation is a fixed total mapping —
unary maps to `"unary"`, client-streaming to `"client_stream"`,
server-streaming to `"server_stream"`, bidirectional to `"bidi_stream"`,
and every other stream-type value maps to the empty string rather than
failing. -/
theorem streamType_total_mapping (t : Nat) :
    streamType streamTypeUnary = "unary"
    ∧ streamType streamTypeClient = "client_stream"
    ∧ streamType streamTypeServer = "server_stream"
    ∧ streamType streamTypeBidi = "bidi_stream"
    ∧ (t ≠ streamTypeUnary → t ≠ streamTypeClient → t ≠ streamTypeServer →
        t ≠ streamTypeBidi → streamType t = "") := by
  refine ⟨rfl, rfl, rfl, rfl, ?_⟩
  intro h0 h1 h2 h3
  simp [streamType, h0, h1, h2, h3]

/-- Witness for C6: the unrecognized stream-type value `7` maps to the
empty string. -/
theorem streamType_total_mapping_witness : streamType 7 = "" :=
  (streamType_total_mapping 7).2.2.2.2 (by decide) (by decide) (by decide)
    (by decide)

/-- Claim C7: instrument selection by direction is binary and mutually
exclusive — every metric event emitted by the wrapped unary function of
either variant touches a client-side instrument exactly when the
descriptor's direction is initiating-client, so server instruments are
never touched on client calls and vice versa. -/
theorem wrapUnary_direction_exclusive (next : UnaryFunc) (ctx : Ctx)
    (req : AnyRequest) :
    ((wrapUnary next ctx req).events.all
        (fun e => e.instrument.isClientSide == req.spec.isClient)) = true
    ∧ ((CounterOnly.wrapUnary next ctx req).events.all
        (fun e => e.instrument.isClientSide == req.spec.isClient)) = true := by
  by_cases h3 : (goSplit req.spec.procedure '/').length = 3 <;>
    cases hc : req.spec.isClient <;>
      simp [wrapUnary, CounterOnly.wrapUnary, h3, hc,
        MetricEvent.instrument, Instrument.isClientSide]

/-- Claim C8: both streaming wrap operations of both variants are the
identity transformation — each returns the supplied delegate unchanged,
and (being pure) emits no metric and has no other side effect. -/
theorem wrapStreaming_identity (h : StreamingClientFunc)
    (g : StreamingHandlerFunc) :
    wrapStreamingClient h = h
    ∧ wrapStreamingHandler g = g
    ∧ CounterOnly.wrapStreamingClient h = h
    ∧ CounterOnly.wrapStreamingHandler g = g :=
  ⟨rfl, rfl, rfl, rfl⟩

/-- Counterexample to claim C9: the counter-only variant's constructor
registers two instruments (the two request counters), not four. -/
theorem newInterceptor_counterOnly_two_cex :
    CounterOnly.newInterceptor.length = 2
    ∧ CounterOnly.newInterceptor.length ≠ 4
    ∧ CounterOnly.newInterceptor.map Registration.name =
      ["connect_client_requests_total", "connect_server_requests_total"] := by
  refine ⟨rfl, by decide, rfl⟩

/-- Claim C9 as amended: the full variant's constructor registers
exactly four instruments, named `connect_client_requests_total`,
`connect_client_requests_duration_seconds`,
`connect_server_requests_total` and
`connect_server_requests_duration_seconds`, all sharing the label schema
`[code, method, service, type]`, the two histograms configured with
native-histogram bucket growth factor `1.1` and maximum bucket count
`100`; the counter-only variant's constructor registers exactly the two
request counters with the same label schema. -/
theorem newInterceptor_registrations :
    newInterceptor.map Registration.name =
      ["connect_client_requests_total",
       "connect_client_requests_duration_seconds",
       "connect_server_requests_total",
       "connect_server_requests_duration_seconds"]
    ∧ newInterceptor.map Registration.labelNames =
      [labelNames, labelNames, labelNames, labelNames]
    ∧ labelNames = ["code", "method", "service", "type"]
    ∧ newInterceptor.map (fun r => (r.kind, r.nativeHistogramBucketFactor,
        r.nativeHistogramMaxBucketNumber)) =
      [(InstrumentKind.counter, none, none),
       (InstrumentKind.histogram, some (11 / 10 : ℚ), some 100),
       (InstrumentKind.counter, none, none),
       (InstrumentKind.histogram, some (11 / 10 : ℚ), some 100)]
    ∧ CounterOnly.newInterceptor.map
        (fun r => (r.name, r.labelNames, r.kind)) =
      [("connect_client_requests_total", labelNames, InstrumentKind.counter),
       ("connect_server_requests_total", labelNames,
        InstrumentKind.counter)] :=
  ⟨rfl, rfl, rfl, rfl, rfl⟩

/-- Claim C10: when the procedure identifier is rejected as malformed
(its split is not exactly three segments), the wrapped unary function of
either variant returns a nil response alongside the internal error — the
caller receives no response value at all. -/
theorem wrapUnary_malformed_nil_response (next : UnaryFunc) (ctx : Ctx)
    (req : AnyRequest)
    (h : (goSplit req.spec.procedure '/').length ≠ 3) :
    (wrapUnary next ctx req).resp = none
    ∧ (wrapUnary next ctx req).err = some (malformedError req.spec.procedure)
    ∧ (CounterOnly.wrapUnary next ctx req).resp = none
    ∧ (CounterOnly.wrapUnary next ctx req).err =
      some (malformedError req.spec.procedure) := by
  refine ⟨?_, ?_, ?_, ?_⟩ <;> simp [wrapUnary, CounterOnly.wrapUnary, h]

/-- Witness for C10: on the malformed procedure `"bad"` (one segment),
both variants return a nil response and the internal error, even though
the delegate would have returned response `5`. -/
theorem wrapUnary_malformed_nil_response_witness :
    (wrapUnary (fun _ _ => (some 5, none)) 0 ⟨⟨"bad", 0, false⟩, 0⟩).resp = none
    ∧ (wrapUnary (fun _ _ => (some 5, none)) 0 ⟨⟨"bad", 0, false⟩, 0⟩).err =
      some (malformedError "bad")
    ∧ (CounterOnly.wrapUnary (fun _ _ => (some 5, none)) 0
        ⟨⟨"bad", 0, false⟩, 0⟩).resp = none
    ∧ (CounterOnly.wrapUnary (fun _ _ => (some 5, none)) 0
        ⟨⟨"bad", 0, false⟩, 0⟩).err = some (malformedError "bad") :=
  wrapUnary_malformed_nil_response (fun _ _ => (some 5, none)) 0
    ⟨⟨"bad", 0, false⟩, 0⟩ (by decide)

end ConnectPrometheus
